import Mathlib

/-!
# Verification of the TruthGuard score-aggregation and verification-ledger subsystem

This file is a shallow embedding, in Lean 4, of the score-aggregation and
hash-chained verification-ledger code of the DataDynamos repository
(`src/backend/blockchain_verifier.py`, `src/backend/ai_engine.py`,
`src/backend/script_2.py`), together with theorems settling the claims of
the natural-language specification against that code.

Modelling conventions:
* Python floats are modelled as exact rationals (`ℚ`); the constants involved
  (0.2, 0.3, 0.7, ...) are decimal literals, and no claim depends on binary
  floating-point rounding at a threshold boundary.
* `hashlib.sha256(...).hexdigest()` is a vendor cryptographic digest; it is
  modelled as a collision-free (injective) constructor: `CHash.sha256` for
  content digests and the inductive `BHash` for block digests.  `BHash`
  distinguishes the two string shapes produced by `_create_blockchain_hash`:
  `json.dumps(block)` for an empty chain (`BHash.base`) and
  `f"{json.dumps(block)}_{previous_hash}"` otherwise (`BHash.link`).
* `json.dumps(d, sort_keys=True, default=str)` is a vendor serializer that is
  deterministic and injective on the fixed-key block dictionaries used here;
  it is absorbed into the `BHash` constructors, which take the block's field
  record (`BlockData`) directly.
* Python dictionaries with string keys are modelled as association lists with
  insert-or-update semantics; `None`-able dictionary entries are `Option`s.
* Fallible external calls (the Gemini model call plus JSON parse) are an
  `Except String` input: `.error e` is the Python exception path with message
  `e`, `.ok` carries the parsed fields the code reads.
-/

namespace Ledger

/-- Models `hashlib.sha256(content.encode('utf-8')).hexdigest()` in
`_create_content_hash`: a collision-free digest of the content string. -/
inductive CHash where
  | sha256 (content : String)
deriving DecidableEq, Repr

/-- The `analysis_details` sub-dictionary built by `create_verification`:
`ai_confidence`, `detection_method` (both possibly `None`) and
`fact_check_sources` (a length, hence a natural number). -/
structure AnalysisDetails where
  ai_confidence : Option ℚ
  detection_method : Option String
  fact_check_sources : ℕ
deriving DecidableEq, Repr

/-- The verification-block dictionary as built by `create_verification`
*before* the `blockchain_hash` key is added — exactly the fields that
`json.dumps(..., sort_keys=True, default=str)` serializes when the block
hash is created or re-created. -/
structure BlockData where
  content_hash : CHash
  authenticity_score : Option ℚ
  misinformation_likelihood : Option ℚ
  risk_level : Option String
  verification_timestamp : String
  verifier : String
  user_id : String
  analysis_details : AnalysisDetails
deriving DecidableEq, Repr

/-- Models the SHA-256 hex digest produced by `_create_blockchain_hash`.
`base d` is the digest of `json.dumps(d, sort_keys=True, default=str)`
(empty-chain case); `link d prev` is the digest of the same serialization
concatenated as `f"{block_string}_{previous_hash}"`.  Constructor injectivity
and disjointness model determinism plus collision-freeness of SHA-256 and
injectivity of the serializer. -/
inductive BHash where
  | base (data : BlockData)
  | link (data : BlockData) (prev : BHash)
deriving DecidableEq, Repr

/-- A block as stored in `self.verification_chain`: the serialized fields
plus the `blockchain_hash` key added after hashing. -/
structure Block where
  data : BlockData
  blockchain_hash : BHash
deriving DecidableEq, Repr

/-- The `BlockchainVerifier` instance state: `self.verification_chain` (a
list) and `self.content_hashes` (a dict keyed by content hash). -/
structure VerifierState where
  verification_chain : List Block
  content_hashes : List (CHash × Block)
deriving DecidableEq, Repr

/-- `self.verification_chain[-1]['blockchain_hash']` when the chain is
non-empty. -/
def lastHash (chain : List Block) : Option BHash :=
  chain.getLast?.map (·.blockchain_hash)

/-- `BlockchainVerifier._create_blockchain_hash`: serialize the block fields,
append the previous (current-last) block hash when the chain is non-empty,
and digest. -/
def create_blockchain_hash (chain : List Block) (d : BlockData) : BHash :=
  match lastHash chain with
  | some h => BHash.link d h
  | none => BHash.base d

/-- The fields `create_verification` reads out of `analysis_result` (each
`.get(...)`, hence possibly `None`) together with the fact-check source
count. -/
structure AnalysisInput where
  authenticity_score : Option ℚ
  misinformation_likelihood : Option ℚ
  risk_level : Option String
  overall_confidence : Option ℚ
  analysis_method : Option String
  fact_check_sources : ℕ
deriving DecidableEq, Repr

/-- The verification-block dictionary literal inside `create_verification`
(minus the later `blockchain_hash` key).  `ts` is the
`datetime.now(timezone.utc).isoformat()` string, supplied as an argument
since it is an environment input. -/
def mkVerificationBlock (content : String) (ar : AnalysisInput)
    (user_id ts : String) : BlockData :=
  { content_hash := CHash.sha256 content
    authenticity_score := ar.authenticity_score
    misinformation_likelihood := ar.misinformation_likelihood
    risk_level := ar.risk_level
    verification_timestamp := ts
    verifier := "TruthGuard-AI-v2.0"
    user_id := user_id
    analysis_details :=
      { ai_confidence := ar.overall_confidence
        detection_method := ar.analysis_method
        fact_check_sources := ar.fact_check_sources } }

/-- `self.content_hashes[content_hash] = verification_block`: dictionary
insert-or-update. -/
def dictInsert (key : CHash) (b : Block) :
    List (CHash × Block) → List (CHash × Block)
  | [] => [(key, b)]
  | (k, v) :: rest =>
      if k = key then (k, b) :: rest else (k, v) :: dictInsert key b rest

/-- `BlockchainVerifier.create_verification`: build the block, hash it
against the current chain tail, append it, index it by content hash, and
return the new block hash. -/
def create_verification (st : VerifierState) (content : String)
    (ar : AnalysisInput) (user_id ts : String) : VerifierState × BHash :=
  let d := mkVerificationBlock content ar user_id ts
  let h := create_blockchain_hash st.verification_chain d
  let blk : Block := ⟨d, h⟩
  (⟨st.verification_chain ++ [blk],
    dictInsert (CHash.sha256 content) blk st.content_hashes⟩, h)

/-- One append input: content, analysis result, user id, timestamp. -/
structure AppendInput where
  content : String
  analysis : AnalysisInput
  user_id : String
  ts : String
deriving DecidableEq, Repr

/-- A fresh `BlockchainVerifier` (empty chain, empty index). -/
def emptyState : VerifierState := ⟨[], []⟩

/-- A chain built from a fresh verifier by sequential `create_verification`
calls. -/
def buildChain (inputs : List AppendInput) : VerifierState :=
  inputs.foldl
    (fun st x => (create_verification st x.content x.analysis x.user_id x.ts).1)
    emptyState

/-- The dictionary returned by `verify_blockchain_integrity`: its key set
differs between the not-found path and the found path, so absent keys are
`none`. -/
structure IntegrityResult where
  is_valid : Bool
  error : Option String
  original_hash : Option BHash
  recreated_hash : Option BHash
  verification_timestamp : Option String
  authenticity_score : Option (Option ℚ)
  content_hash : Option CHash
deriving DecidableEq, Repr

/-- `BlockchainVerifier.verify_blockchain_integrity`: locate the block whose
`blockchain_hash` equals the argument; if absent report invalid/not-found;
otherwise re-create the hash with `_create_blockchain_hash` (which appends
the *current chain tail's* hash) and compare. -/
def verify_blockchain_integrity (st : VerifierState) (h : BHash) :
    IntegrityResult :=
  match st.verification_chain.find? (fun b => b.blockchain_hash == h) with
  | none =>
      { is_valid := false
        error := some "Verification block not found"
        original_hash := none
        recreated_hash := none
        verification_timestamp := none
        authenticity_score := none
        content_hash := none }
  | some blk =>
      let recreated := create_blockchain_hash st.verification_chain blk.data
      { is_valid := blk.blockchain_hash == recreated
        error := none
        original_hash := some blk.blockchain_hash
        recreated_hash := some recreated
        verification_timestamp := some blk.data.verification_timestamp
        authenticity_score := some blk.data.authenticity_score
        content_hash := some blk.data.content_hash }

/-- The loop body of `_verify_chain_integrity` from index `i`, with `prev`
the previous block's stored `blockchain_hash`: re-create each block's hash
as serialization-plus-previous-hash and report the first mismatching index
(the index the source logs in `Chain integrity broken at block {i}`). -/
def firstBrokenAux (prev : BHash) (i : ℕ) : List Block → Option ℕ
  | [] => none
  | b :: rest =>
      if b.blockchain_hash = BHash.link b.data prev then
        firstBrokenAux b.blockchain_hash (i + 1) rest
      else some i

/-- `BlockchainVerifier._verify_chain_integrity`, refined to also report the
logged index of the first broken block: index 0 is skipped entirely
(`if i == 0: continue`), and every later block is re-hashed against its
actual predecessor's stored hash. -/
def firstBrokenIndex : List Block → Option ℕ
  | [] => none
  | b :: rest => firstBrokenAux b.blockchain_hash 1 rest

/-- `BlockchainVerifier._verify_chain_integrity`'s boolean result: `True`
iff no block after index 0 mismatches. -/
def verify_chain_integrity (st : VerifierState) : Bool :=
  (firstBrokenIndex st.verification_chain).isNone

/-- Python `round` (banker's rounding, round-half-to-even) on an exact
rational. -/
def pyRound (q : ℚ) : ℤ :=
  let n := ⌊q⌋
  let f := q - n
  if f < 1/2 then n
  else if 1/2 < f then n + 1
  else if 2 ∣ n then n else n + 1

/-- `round(x, 3)` on an exact rational. -/
def round3 (q : ℚ) : ℚ := (pyRound (q * 1000) : ℚ) / 1000

/-- `risk_distribution[risk_level] = risk_distribution.get(risk_level, 0) + 1`.
The key is `block.get('risk_level', 'unknown')`, which is the stored value
(possibly `None`) since the key is always present. -/
def bumpRisk (k : Option String) :
    List (Option String × ℕ) → List (Option String × ℕ)
  | [] => [(k, 1)]
  | (k2, n) :: rest =>
      if k2 = k then (k2, n + 1) :: rest else (k2, n) :: bumpRisk k rest

/-- The list comprehension
`[block['authenticity_score'] for block in chain if block['authenticity_score']]`:
Python truthiness keeps exactly the scores that are neither `None` nor
`0.0`. -/
def truthyScores (chain : List Block) : List ℚ :=
  chain.filterMap fun b =>
    match b.data.authenticity_score with
    | some q => if q ≠ 0 then some q else none
    | none => none

/-- The dictionary returned by `get_verification_stats`; the empty-chain
early return carries no `chain_integrity` key, hence the `Option`. -/
structure VerificationStats where
  total_verifications : ℕ
  unique_content_pieces : ℕ
  average_authenticity_score : ℚ
  risk_distribution : List (Option String × ℕ)
  chain_integrity : Option Bool
deriving DecidableEq, Repr

/-- `BlockchainVerifier.get_verification_stats`. -/
def get_verification_stats (st : VerifierState) : VerificationStats :=
  if st.verification_chain.isEmpty then
    { total_verifications := 0
      unique_content_pieces := 0
      average_authenticity_score := 0
      risk_distribution := []
      chain_integrity := none }
  else
    let scores := truthyScores st.verification_chain
    let avg : ℚ := if scores.isEmpty then 0 else scores.sum / (scores.length : ℚ)
    { total_verifications := st.verification_chain.length
      unique_content_pieces := st.content_hashes.length
      average_authenticity_score := round3 avg
      risk_distribution :=
        st.verification_chain.foldl (fun acc b => bumpRisk b.data.risk_level acc) []
      chain_integrity := some (verify_chain_integrity st) }

end Ledger

/-! ## Shared Python string primitives -/

/-- Python's `str.lower()` (ASCII case folding as used by the patterns in
this repository). -/
def pyLower (s : String) : String := ⟨s.data.map Char.toLower⟩

/-- Python's substring containment `needle in hay` on character lists. -/
def hasSubList (needle : List Char) : List Char → Bool
  | [] => needle.isEmpty
  | c :: t => needle.isPrefixOf (c :: t) || hasSubList needle t

/-- Python's `needle in hay` for strings. -/
def pyIn (needle hay : String) : Bool := hasSubList needle.data hay.data

/-- An apostrophe character, written by code point. -/
def aposS : String := String.singleton (Char.ofNat 39)

namespace AiEngine

/-! Embedding of the scoring logic of `src/backend/ai_engine.py`
(`TruthGuardAIEngine._check_misinformation_patterns` and
`TruthGuardAIEngine._calculate_final_scores`). -/

/-- The `sensational_words` list ("they don" + apostrophe + "t want you to
know" is spelled with an apostrophe in the source). -/
def sensational_words : List String :=
  ["shocking", "unbelievable", "secret", "hidden truth",
   "they don" ++ aposS ++ "t want you to know"]

/-- The `conspiracy_words` list. -/
def conspiracy_words : List String :=
  ["conspiracy", "cover-up", "mainstream media", "deep state"]

/-- `TruthGuardAIEngine._check_misinformation_patterns` (ai_engine.py):
appends `"sensational_language"`, `"conspiracy_indicators"` and
`"lack_of_sources"` — each category at most once — in that order. -/
def check_misinformation_patterns (text : String) : List String :=
  let text_lower := pyLower text
  (if sensational_words.any (fun w => pyIn w text_lower) then
    ["sensational_language"] else []) ++
  (if conspiracy_words.any (fun w => pyIn w text_lower) then
    ["conspiracy_indicators"] else []) ++
  (if pyIn "source" text_lower = false ∧ pyIn "study" text_lower = false ∧
      100 < text.length then
    ["lack_of_sources"] else [])

/-- The fields of the `result` dictionary that
`_calculate_final_scores` writes. -/
structure FinalScores where
  confidence_score : ℚ
  risk_level : String
  is_misinformation : Bool
deriving DecidableEq, Repr

/-- `TruthGuardAIEngine._calculate_final_scores` (ai_engine.py): add 0.2 per
detected pattern to the confidence score, clamp above at 1.0, classify with
thresholds 0.3 / 0.7, and set `is_misinformation` in the high branch.
`prior` is the incoming `result["is_misinformation"]`, which the low and
medium branches leave unchanged. -/
def calculate_final_scores (detected_patterns : List String)
    (confidence_score : ℚ) (prior : Bool) : FinalScores :=
  let final_score := min 1 (confidence_score + detected_patterns.length * (2/10))
  if final_score < 3/10 then ⟨final_score, "low", prior⟩
  else if final_score < 7/10 then ⟨final_score, "medium", prior⟩
  else ⟨final_score, "high", true⟩

end AiEngine

namespace Script2

/-! Embedding of the scoring logic of `src/backend/script_2.py` (the
`TruthGuardAIEngine` written into `app/core/ai_engine.py` by that script). -/

/-- `self.misinformation_patterns`: category → phrase list, in insertion
order. -/
def misinformation_patterns : List (String × List String) :=
  [("election_manipulation",
    ["voting machines hacked", "fake polling results", "voter fraud conspiracy"]),
   ("health_misinformation",
    ["vaccine microchips", "covid hoax", "miracle cure"]),
   ("deepfake_indicators",
    ["unnatural facial movements", "inconsistent lighting", "audio sync issues"])]

/-- `TruthGuardAIEngine._check_misinformation_patterns` (script_2.py): one
`f"{category}: {pattern}"` entry per *matching phrase*, iterating categories
and phrases in order. -/
def check_misinformation_patterns (text : String) : List String :=
  let text_lower := pyLower text
  (misinformation_patterns.map fun cp =>
    cp.2.filterMap fun p =>
      if pyIn (pyLower p) text_lower then some (cp.1 ++ ": " ++ p) else none).flatten

/-- `self.trusted_sources`: category → domain list, in insertion order. -/
def trusted_sources : List (String × List String) :=
  [("news",
    ["pti.org.in", "thehindu.com", "indianexpress.com",
     "timesofindia.com", "ndtv.com", "republicworld.com"]),
   ("government",
    ["pib.gov.in", "mygov.in", "nic.in", "india.gov.in"]),
   ("fact_check",
    ["boomlive.in", "altnews.in", "factchecker.in",
     "vishvasnews.com", "newsmobile.in"])]

/-- `TruthGuardAIEngine._evaluate_source_credibility`.  The
`urlparse(source_url).netloc` extraction is a Python stdlib call; the
argument here is that extracted network-location string, lower-cased and
matched against the trusted-source tiers (government 0.95, fact-check 0.9,
news 0.8, unknown 0.5). -/
def evaluate_source_credibility (netloc : String) : ℚ :=
  let domain := pyLower netloc
  match trusted_sources.find? (fun cp => cp.2.any fun d => pyIn d domain) with
  | some cp =>
      if cp.1 = "government" then 95/100
      else if cp.1 = "fact_check" then 9/10
      else if cp.1 = "news" then 8/10
      else 5/10
  | none => 5/10

/-- `TruthGuardAIEngine._calculate_risk_level` (script_2.py): thresholds
0.8 / 0.6 / 0.4. -/
def calculate_risk_level (misinformation_likelihood : ℚ) : String :=
  if misinformation_likelihood ≥ 8/10 then "critical"
  else if misinformation_likelihood ≥ 6/10 then "high"
  else if misinformation_likelihood ≥ 4/10 then "medium"
  else "low"

/-- The fields of the parsed Gemini JSON that `_analyze_text_content`
reads.  `authenticity_score` and `misinformation_likelihood` are accessed
with `[...]` (a missing key raises, i.e. lands in the `Except.error`
input); `confidence_level` is accessed with `.get(..., 0.8)`. -/
structure GeminiTextResult where
  authenticity_score : ℚ
  misinformation_likelihood : ℚ
  confidence_level : Option ℚ
deriving DecidableEq, Repr

/-- The result dictionary of `_analyze_text_content`, restricted to the
fields the claims are about.  The fallback (except) path has no
`pattern_matches` / `source_credibility` entries in `detection_details`,
hence the `Option`s. -/
structure TextAnalysis where
  authenticity_score : ℚ
  misinformation_likelihood : ℚ
  pattern_matches : Option (List String)
  source_credibility : Option ℚ
  analysis_method : String
  error : Option String
  overall_confidence : ℚ
deriving DecidableEq, Repr

/-- `TruthGuardAIEngine._analyze_text_content` (script_2.py).  `gemini` is
the outcome of `generate_content_async` plus `json.loads` plus the required
key reads; any exception in the `try` block yields the fallback dictionary
`(0.5, 0.5, confidence 0.3, method "fallback")` with the error recorded.
On success: a flat +0.3 / −0.3 adjustment (clamped at that step) is applied
once if *any* pattern phrase matched, then the authenticity score is
averaged with the source-credibility score when a source URL is present
(`source_score` stays 1.0 otherwise). -/
def analyze_text_content (text : String) (source_url : Option String)
    (gemini : Except String GeminiTextResult) : TextAnalysis :=
  match gemini with
  | .error e =>
      { authenticity_score := 1/2
        misinformation_likelihood := 1/2
        pattern_matches := none
        source_credibility := none
        analysis_method := "fallback"
        error := some e
        overall_confidence := 3/10 }
  | .ok g =>
      let pattern_matches := check_misinformation_patterns text
      let misinformation_likelihood :=
        if pattern_matches ≠ [] then
          min 1 (g.misinformation_likelihood + 3/10)
        else g.misinformation_likelihood
      let authenticity_score :=
        if pattern_matches ≠ [] then
          max 0 (g.authenticity_score - 3/10)
        else g.authenticity_score
      let source_score :=
        match source_url with
        | some url => evaluate_source_credibility url
        | none => 1
      let authenticity_score :=
        match source_url with
        | some _ => (authenticity_score + source_score) / 2
        | none => authenticity_score
      { authenticity_score := authenticity_score
        misinformation_likelihood := misinformation_likelihood
        pattern_matches := some pattern_matches
        source_credibility := some source_score
        analysis_method := "multimodal_text_analysis"
        error := none
        overall_confidence := g.confidence_level.getD (8/10) }

/-- The result dictionary of `_analyze_video_content` /
`_analyze_audio_content`, restricted to the fields the claims are about. -/
structure ModalAnalysis where
  authenticity_score : ℚ
  misinformation_likelihood : ℚ
  analysis_method : String
  error : Option String
  overall_confidence : ℚ
deriving DecidableEq, Repr

/-- The external-call outcomes `_analyze_video_content` consumes on its
success path: `gemini_result.get("authenticity_score", 0.7)` from the video
Gemini call, the speech transcription, and the Gemini outcome for the inner
`_analyze_text_content` call on the transcription. -/
structure VideoInputs where
  gemini_authenticity : Option ℚ
  transcribed_text : String
  speech_gemini : Except String GeminiTextResult
deriving Repr

/-- `TruthGuardAIEngine._analyze_video_content` (script_2.py): when the
transcription is non-empty (Python truthiness of the string) the speech
side is a full `_analyze_text_content` result, else `speech_analysis = {}`
and `.get("authenticity_score", 0.7)` yields 0.7; the final blend is
`visual*0.7 + speech*0.3` and `misinformation = 1 − authenticity`.  Any
exception in the `try` block yields the fallback dictionary. -/
def analyze_video_content (source_url : Option String)
    (vi : Except String VideoInputs) : ModalAnalysis :=
  match vi with
  | .error e =>
      { authenticity_score := 1/2
        misinformation_likelihood := 1/2
        analysis_method := "fallback"
        error := some e
        overall_confidence := 3/10 }
  | .ok v =>
      let speech_analysis : Option TextAnalysis :=
        if v.transcribed_text = "" then none
        else some (analyze_text_content v.transcribed_text source_url v.speech_gemini)
      let video_authenticity := v.gemini_authenticity.getD (7/10)
      let speech_authenticity :=
        (speech_analysis.map (·.authenticity_score)).getD (7/10)
      let authenticity_score :=
        video_authenticity * (7/10) + speech_authenticity * (3/10)
      { authenticity_score := authenticity_score
        misinformation_likelihood := 1 - authenticity_score
        analysis_method := "multimodal_video_analysis"
        error := none
        overall_confidence := 75/100 }

/-- The external-call outcomes `_analyze_audio_content` consumes on its
success path: the transcription, the Gemini outcome for the inner
`_analyze_text_content` call, and
`gemini_result.get("authenticity_score", 0.7)` from the voice-analysis
Gemini call. -/
structure AudioInputs where
  gemini_authenticity : Option ℚ
  transcribed_text : String
  text_gemini : Except String GeminiTextResult
deriving Repr

/-- `TruthGuardAIEngine._analyze_audio_content` (script_2.py): the inner
text analysis always runs on the transcription; the final blend is
`text*0.6 + voice*0.4` and `misinformation = 1 − authenticity`.  Any
exception in the `try` block yields the fallback dictionary. -/
def analyze_audio_content (source_url : Option String)
    (ai : Except String AudioInputs) : ModalAnalysis :=
  match ai with
  | .error e =>
      { authenticity_score := 1/2
        misinformation_likelihood := 1/2
        analysis_method := "fallback"
        error := some e
        overall_confidence := 3/10 }
  | .ok a =>
      let text_analysis := analyze_text_content a.transcribed_text source_url a.text_gemini
      let text_score := text_analysis.authenticity_score
      let voice_score := a.gemini_authenticity.getD (7/10)
      let authenticity_score := text_score * (6/10) + voice_score * (4/10)
      { authenticity_score := authenticity_score
        misinformation_likelihood := 1 - authenticity_score
        analysis_method := "multimodal_audio_analysis"
        error := none
        overall_confidence := 75/100 }

end Script2

/-! ## Helper lemmas about the verification chain -/

namespace Ledger

/-- The hash of the last block of `l`, or `h0` when `l` is empty (the
"previous hash" seen by a block appended after prefix `h0 :: l`). -/
def tailHash (h0 : BHash) : List Block → BHash
  | [] => h0
  | b :: t => tailHash b.blockchain_hash t

lemma lastHash_cons (b0 : Block) (rest : List Block) :
    lastHash (b0 :: rest) = some (tailHash b0.blockchain_hash rest) := by
  induction rest generalizing b0 with
  | nil => simp [lastHash, tailHash]
  | cons c t ih =>
      have : lastHash (b0 :: c :: t) = lastHash (c :: t) := by
        simp [lastHash]
      rw [this, ih, tailHash]

lemma create_blockchain_hash_cons (b0 : Block) (rest : List Block)
    (d : BlockData) :
    create_blockchain_hash (b0 :: rest) d =
      BHash.link d (tailHash b0.blockchain_hash rest) := by
  rw [create_blockchain_hash, lastHash_cons]

lemma firstBrokenAux_append (l : List Block) :
    ∀ (prev : BHash) (i : ℕ) (b : Block),
      firstBrokenAux prev i (l ++ [b]) = none ↔
        (firstBrokenAux prev i l = none ∧
          b.blockchain_hash = BHash.link b.data (tailHash prev l)) := by
  induction l with
  | nil =>
      intro prev i b
      constructor
      · intro h
        by_cases hb : b.blockchain_hash = BHash.link b.data prev
        · exact ⟨rfl, hb⟩
        · simp [firstBrokenAux, hb] at h
      · rintro ⟨-, hb⟩
        simp [firstBrokenAux, hb, tailHash]
  | cons c t ih =>
      intro prev i b
      rw [List.cons_append]
      by_cases hc : c.blockchain_hash = BHash.link c.data prev
      · rw [firstBrokenAux, if_pos hc, firstBrokenAux, if_pos hc,
          show tailHash prev (c :: t) = tailHash c.blockchain_hash t from rfl]
        exact ih c.blockchain_hash (i + 1) b
      · rw [firstBrokenAux, if_neg hc, firstBrokenAux, if_neg hc]
        simp

/-- The chain-integrity check passes. -/
def chainOk (chain : List Block) : Prop := firstBrokenIndex chain = none

lemma chainOk_append (st : VerifierState) (content : String)
    (ar : AnalysisInput) (user_id ts : String)
    (h : chainOk st.verification_chain) :
    chainOk (create_verification st content ar user_id ts).1.verification_chain := by
  unfold chainOk create_verification at *
  cases hch : st.verification_chain with
  | nil => simp [firstBrokenIndex, firstBrokenAux]
  | cons b0 rest =>
      rw [hch] at h
      unfold firstBrokenIndex at h ⊢
      simp only [List.cons_append]
      rw [firstBrokenAux_append]
      exact ⟨h, by rw [create_blockchain_hash_cons]⟩

lemma chainOk_buildChain (inputs : List AppendInput) :
    chainOk (buildChain inputs).verification_chain := by
  suffices h : ∀ (l : List AppendInput) (st : VerifierState),
      chainOk st.verification_chain →
      chainOk ((l.foldl
        (fun st x => (create_verification st x.content x.analysis x.user_id x.ts).1)
        st).verification_chain) by
    exact h inputs emptyState (by simp [emptyState, chainOk, firstBrokenIndex])
  intro l
  induction l with
  | nil => intro st hst; exact hst
  | cons x xs ih =>
      intro st hst
      exact ih _ (chainOk_append st x.content x.analysis x.user_id x.ts hst)

lemma firstBrokenAux_set (l : List Block) :
    ∀ (prev : BHash) (i0 j : ℕ) (b b' : Block),
      l.get? j = some b →
      firstBrokenAux prev i0 l = none →
      ((b'.data ≠ b.data ∧ b'.blockchain_hash = b.blockchain_hash) ∨
        (b'.data = b.data ∧ b'.blockchain_hash ≠ b.blockchain_hash)) →
      firstBrokenAux prev i0 (l.set j b') = some (i0 + j) := by
  induction l with
  | nil => intro prev i0 j b b' hget; simp at hget
  | cons c t ih =>
      intro prev i0 j b b' hget hok hmut
      have hc : c.blockchain_hash = BHash.link c.data prev := by
        by_contra hco
        simp [firstBrokenAux, hco] at hok
      rw [firstBrokenAux, if_pos hc] at hok
      cases j with
      | zero =>
          have hbc : c = b := by simpa using hget
          subst hbc
          rcases hmut with ⟨hd, hh⟩ | ⟨hd, hh⟩
          · have hne : b'.blockchain_hash ≠ BHash.link b'.data prev := by
              rw [hh, hc]
              intro hlink
              injection hlink with h1 h2
              exact hd h1.symm
            simp [firstBrokenAux, hne]
          · have hne : b'.blockchain_hash ≠ BHash.link b'.data prev := by
              rw [hd, ← hc]
              exact hh
            simp [firstBrokenAux, hne]
      | succ k =>
          have hget' : t.get? k = some b := by simpa using hget
          have := ih c.blockchain_hash (i0 + 1) k b b' hget' hok hmut
          rw [show (c :: t).set (k + 1) b' = c :: t.set k b' from rfl]
          rw [firstBrokenAux, if_pos hc, this]
          congr 1
          omega

end Ledger

/-! ## Concrete ledger scenarios used by the claim theorems -/

namespace Ledger

/-- A sample analysis result with integral scores. -/
def exampleAnalysis : AnalysisInput :=
  ⟨some 1, some 0, some "low", some 1, some "multimodal_text_analysis", 2⟩

/-- Two sequential appends to a fresh verifier. -/
def exampleInputs : List AppendInput :=
  [⟨"first content", exampleAnalysis, "user-1", "2025-01-01T00:00:00+00:00"⟩,
   ⟨"second content", exampleAnalysis, "user-2", "2025-01-01T00:01:00+00:00"⟩]

/-- The first block of `buildChain exampleInputs`, exactly as stored. -/
def exampleBlock0 : Block :=
  ⟨mkVerificationBlock "first content" exampleAnalysis "user-1"
      "2025-01-01T00:00:00+00:00",
   BHash.base (mkVerificationBlock "first content" exampleAnalysis "user-1"
      "2025-01-01T00:00:00+00:00")⟩

/-- `exampleBlock0` with its `risk_level` field flipped after the fact and
every other field (including the stored hash) unchanged. -/
def exampleBlock0Tampered : Block :=
  { exampleBlock0 with data := { exampleBlock0.data with risk_level := some "high" } }

/-- The second block of `buildChain exampleInputs`, exactly as stored. -/
def exampleBlock1 : Block :=
  ⟨mkVerificationBlock "second content" exampleAnalysis "user-2"
      "2025-01-01T00:01:00+00:00",
   BHash.link
     (mkVerificationBlock "second content" exampleAnalysis "user-2"
       "2025-01-01T00:01:00+00:00")
     exampleBlock0.blockchain_hash⟩

/-- `exampleBlock1` with its `risk_level` field flipped after the fact. -/
def exampleBlock1Tampered : Block :=
  { exampleBlock1 with data := { exampleBlock1.data with risk_level := some "high" } }

/-- A block hash that belongs to no block of `buildChain exampleInputs`. -/
def exampleUnknownHash : BHash :=
  BHash.base (mkVerificationBlock "unrelated content" exampleAnalysis "user-3"
    "2025-01-01T00:02:00+00:00")

end Ledger

/-! ## Claim theorems: verification ledger (C1, C2, C3) -/

/-- **C1.**  The claim says `verify(block_hash)` reports `valid=true` for
every untampered appended block.  The code instead re-creates the hash with
`_create_blockchain_hash`, which concatenates the *current chain tail's*
hash (not the previous hash that was in effect when the block was appended),
so `is_valid` is `False` for every genuinely appended, untampered block:
here a two-append chain is built, both stored blocks are exactly the
untampered appends, both are located (`error = none`), and both are reported
invalid.  The unknown-hash half of the claim does hold: `valid=false` with
the not-found indication, without raising. -/
theorem c1_verify_reports_untampered_block_invalid :
    (Ledger.buildChain Ledger.exampleInputs).verification_chain
      = [Ledger.exampleBlock0, Ledger.exampleBlock1] ∧
    (Ledger.verify_blockchain_integrity (Ledger.buildChain Ledger.exampleInputs)
      Ledger.exampleBlock0.blockchain_hash).is_valid = false ∧
    (Ledger.verify_blockchain_integrity (Ledger.buildChain Ledger.exampleInputs)
      Ledger.exampleBlock0.blockchain_hash).error = none ∧
    (Ledger.verify_blockchain_integrity (Ledger.buildChain Ledger.exampleInputs)
      Ledger.exampleBlock1.blockchain_hash).is_valid = false ∧
    (Ledger.verify_blockchain_integrity (Ledger.buildChain Ledger.exampleInputs)
      Ledger.exampleBlock1.blockchain_hash).error = none ∧
    (Ledger.verify_blockchain_integrity (Ledger.buildChain Ledger.exampleInputs)
      Ledger.exampleUnknownHash).is_valid = false ∧
    (Ledger.verify_blockchain_integrity (Ledger.buildChain Ledger.exampleInputs)
      Ledger.exampleUnknownHash).error = some "Verification block not found" := by
  decide

/-- **C2 (counterexample).**  The claim says mutating any single field of
any single persisted block makes whole-chain verification return `false`.
Here, in a two-block chain built by sequential appends, block 0's
`risk_level` is flipped after the fact (a single-field mutation: the stored
hash and all other fields are unchanged), yet `_verify_chain_integrity`
still returns `True`, because its loop skips index 0 entirely
(`if i == 0: continue`), so block 0's own record is never re-hashed. -/
theorem c2_counterexample_block0_mutation_undetected :
    (Ledger.buildChain Ledger.exampleInputs).verification_chain.get? 0
      = some Ledger.exampleBlock0 ∧
    Ledger.exampleBlock0Tampered.data.risk_level ≠ Ledger.exampleBlock0.data.risk_level ∧
    Ledger.exampleBlock0Tampered.blockchain_hash = Ledger.exampleBlock0.blockchain_hash ∧
    Ledger.verify_chain_integrity
      ⟨(Ledger.buildChain Ledger.exampleInputs).verification_chain.set 0
        Ledger.exampleBlock0Tampered, []⟩ = true := by
  decide

/-- **C2 (amended).**  In any chain built by sequential appends, mutating a
single field of the block at any index `i ≥ 1` — either a change to the
serialized fields with the stored hash kept, or a change to the stored hash
with the fields kept — makes `_verify_chain_integrity` return `False`, and
`i` is exactly the first broken index it logs.  (Index 0 is skipped
entirely, so the analogous statement at index 0 fails; see the
counterexample.) -/
theorem c2_verify_chain_detects_mutation_after_index0
    (inputs : List Ledger.AppendInput) (hs : List (Ledger.CHash × Ledger.Block))
    (i : ℕ) (b b' : Ledger.Block)
    (hget : (Ledger.buildChain inputs).verification_chain.get? i = some b)
    (hi : 1 ≤ i)
    (hmut : (b'.data ≠ b.data ∧ b'.blockchain_hash = b.blockchain_hash) ∨
      (b'.data = b.data ∧ b'.blockchain_hash ≠ b.blockchain_hash)) :
    Ledger.firstBrokenIndex
      ((Ledger.buildChain inputs).verification_chain.set i b') = some i ∧
    Ledger.verify_chain_integrity
      ⟨(Ledger.buildChain inputs).verification_chain.set i b', hs⟩ = false := by
  have hok := Ledger.chainOk_buildChain inputs
  unfold Ledger.chainOk at hok
  cases hch : (Ledger.buildChain inputs).verification_chain with
  | nil => rw [hch] at hget; simp at hget
  | cons b0 rest =>
      obtain ⟨k, rfl⟩ : ∃ k, i = k + 1 := ⟨i - 1, by omega⟩
      rw [hch] at hget
      have hget' : rest.get? k = some b := by simpa using hget
      have hok2 : Ledger.firstBrokenAux b0.blockchain_hash 1 rest = none := by
        rw [hch] at hok
        simpa [Ledger.firstBrokenIndex] using hok
      have haux := Ledger.firstBrokenAux_set rest b0.blockchain_hash 1 k b b' hget' hok2 hmut
      have hset : (b0 :: rest).set (k + 1) b' = b0 :: rest.set k b' := rfl
      have hmain : Ledger.firstBrokenIndex
          ((b0 :: rest).set (k + 1) b') = some (k + 1) := by
        rw [hset]
        simp only [Ledger.firstBrokenIndex]
        rw [haux]
        congr 1
        omega
      refine ⟨hmain, ?_⟩
      show (Ledger.firstBrokenIndex ((b0 :: rest).set (k + 1) b')).isNone = false
      rw [hmain]
      rfl

/-- **C2 (witness).**  The amended theorem applied to the concrete
two-append chain with block 1's `risk_level` flipped: the first broken index
is 1 and whole-chain verification fails. -/
theorem c2_verify_chain_detects_witness :
    Ledger.firstBrokenIndex
      ((Ledger.buildChain Ledger.exampleInputs).verification_chain.set 1
        Ledger.exampleBlock1Tampered) = some 1 ∧
    Ledger.verify_chain_integrity
      ⟨(Ledger.buildChain Ledger.exampleInputs).verification_chain.set 1
        Ledger.exampleBlock1Tampered, []⟩ = false :=
  c2_verify_chain_detects_mutation_after_index0 Ledger.exampleInputs [] 1
    Ledger.exampleBlock1 Ledger.exampleBlock1Tampered (by decide) (by decide)
    (Or.inl ⟨by decide, by decide⟩)

/-- **C3.**  A chain freshly built by any number of sequential
`create_verification` appends, with no tampering, passes
`_verify_chain_integrity`: every block after index 0 re-hashes to its stored
hash against its actual predecessor's stored hash.  Holds for any N ≥ 0
(`inputs` of any length, including empty). -/
theorem c3_verify_chain_true_on_fresh_chain (inputs : List Ledger.AppendInput) :
    Ledger.verify_chain_integrity (Ledger.buildChain inputs) = true := by
  have h := Ledger.chainOk_buildChain inputs
  unfold Ledger.chainOk at h
  unfold Ledger.verify_chain_integrity
  rw [h]
  rfl

/-! ## Claim C10: ledger statistics -/

namespace Ledger

lemma round3_zero : round3 0 = 0 := by
  simp [round3, pyRound]

lemma truthyScores_append_falsy (chain : List Block) (b : Block)
    (hb : b.data.authenticity_score = none ∨ b.data.authenticity_score = some 0) :
    truthyScores (chain ++ [b]) = truthyScores chain := by
  unfold truthyScores
  rw [List.filterMap_append]
  rcases hb with hb | hb <;> simp [hb]

lemma stats_average_eq (chain : List Block) (hs : List (CHash × Block))
    (h : chain ≠ []) :
    (get_verification_stats ⟨chain, hs⟩).average_authenticity_score
      = round3 (if (truthyScores chain).isEmpty then 0
          else (truthyScores chain).sum / ((truthyScores chain).length : ℚ)) := by
  unfold get_verification_stats
  rw [if_neg (by simpa [List.isEmpty_iff] using h)]

/-- A block whose stored `authenticity_score` is `None` (Python-falsy). -/
def falsyBlock : Block :=
  ⟨mkVerificationBlock "unscored content" ⟨none, some 1, some "high", none, none, 0⟩
      "user-4" "2025-01-01T00:03:00+00:00",
   BHash.base (mkVerificationBlock "unscored content"
      ⟨none, some 1, some "high", none, none, 0⟩
      "user-4" "2025-01-01T00:03:00+00:00")⟩

end Ledger

/-- **C10.**  In `get_verification_stats`, the reported average authenticity
score is taken only over blocks whose stored `authenticity_score` is
Python-truthy (`if block['authenticity_score']`), so a block whose score is
`None` or `0.0` is excluded from both the numerator and the denominator
(appending such a block leaves the reported average unchanged), and a
non-empty chain in which no block has a truthy score reports average 0. -/
theorem c10_stats_average_skips_falsy_scores :
    (∀ (chain : List Ledger.Block) (hs hs2 : List (Ledger.CHash × Ledger.Block))
        (b : Ledger.Block),
      (b.data.authenticity_score = none ∨ b.data.authenticity_score = some 0) →
      (Ledger.get_verification_stats ⟨chain ++ [b], hs⟩).average_authenticity_score
        = (Ledger.get_verification_stats ⟨chain, hs2⟩).average_authenticity_score) ∧
    (∀ (chain : List Ledger.Block) (hs : List (Ledger.CHash × Ledger.Block)),
      chain ≠ [] →
      (∀ b ∈ chain, b.data.authenticity_score = none ∨ b.data.authenticity_score = some 0) →
      (Ledger.get_verification_stats ⟨chain, hs⟩).average_authenticity_score = 0) := by
  have hfalsy : ∀ (chain : List Ledger.Block),
      (∀ b ∈ chain, b.data.authenticity_score = none ∨ b.data.authenticity_score = some 0) →
      Ledger.truthyScores chain = [] := by
    intro chain hall
    unfold Ledger.truthyScores
    rw [List.filterMap_eq_nil_iff]
    intro a ha
    rcases hall a ha with h | h <;> simp [h]
  constructor
  · intro chain hs hs2 b hb
    cases chain with
    | nil =>
        rw [List.nil_append, Ledger.stats_average_eq [b] hs (by simp)]
        have : Ledger.truthyScores [b] = [] := by
          rcases hb with hb | hb <;> simp [Ledger.truthyScores, hb]
        rw [this]
        simp [Ledger.get_verification_stats, Ledger.round3_zero]
    | cons c t =>
        rw [Ledger.stats_average_eq ((c :: t) ++ [b]) hs (by simp),
          Ledger.stats_average_eq (c :: t) hs2 (by simp),
          Ledger.truthyScores_append_falsy (c :: t) b hb]
  · intro chain hs hne hall
    rw [Ledger.stats_average_eq chain hs hne, hfalsy chain hall]
    simp [Ledger.round3_zero]

/-- **C10 (witness).**  Appending a `None`-scored block to a one-block chain
leaves the reported average unchanged, and a chain consisting only of that
falsy block reports average 0. -/
theorem c10_stats_average_witness :
    (Ledger.get_verification_stats
        ⟨[Ledger.exampleBlock0] ++ [Ledger.falsyBlock], []⟩).average_authenticity_score
      = (Ledger.get_verification_stats
        ⟨[Ledger.exampleBlock0], []⟩).average_authenticity_score ∧
    (Ledger.get_verification_stats
        ⟨[Ledger.falsyBlock], []⟩).average_authenticity_score = 0 :=
  ⟨c10_stats_average_skips_falsy_scores.1 [Ledger.exampleBlock0] [] []
      Ledger.falsyBlock (Or.inl rfl),
   c10_stats_average_skips_falsy_scores.2 [Ledger.falsyBlock] [] (by simp)
      (by
        intro b hb
        rw [List.mem_singleton] at hb
        subst hb
        exact Or.inl rfl)⟩

/-! ## Helper lemmas about the scoring engines -/

namespace AiEngine

lemma calculate_final_scores_confidence_eq (pats : List String) (base : ℚ) (prior : Bool) :
    (AiEngine.calculate_final_scores pats base prior).confidence_score
      = min 1 (base + pats.length * (2/10)) := by
  simp only [AiEngine.calculate_final_scores]
  split_ifs <;> rfl

end AiEngine

namespace Script2

lemma analyze_text_mis_of_patterns (text : String) (source_url : Option String)
    (g : GeminiTextResult) (h : check_misinformation_patterns text ≠ []) :
    (analyze_text_content text source_url (.ok g)).misinformation_likelihood
      = min 1 (g.misinformation_likelihood + 3/10) := by
  unfold analyze_text_content
  simp only [if_pos h]

lemma analyze_text_auth_of_patterns_nourl (text : String)
    (g : GeminiTextResult) (h : check_misinformation_patterns text ≠ []) :
    (analyze_text_content text none (.ok g)).authenticity_score
      = max 0 (g.authenticity_score - 3/10) := by
  unfold analyze_text_content
  simp only [if_pos h]

lemma evaluate_source_credibility_cases (u : String) :
    evaluate_source_credibility u = 95/100 ∨ evaluate_source_credibility u = 9/10 ∨
    evaluate_source_credibility u = 8/10 ∨ evaluate_source_credibility u = 5/10 := by
  simp only [evaluate_source_credibility]
  cases h : List.find? (fun cp => cp.2.any fun d => pyIn d (pyLower u)) trusted_sources with
  | none => simp [h]
  | some cp =>
      simp only [h]
      split_ifs <;> simp

lemma evaluate_source_credibility_bounds (u : String) :
    0 ≤ evaluate_source_credibility u ∧ evaluate_source_credibility u ≤ 1 := by
  rcases evaluate_source_credibility_cases u with h | h | h | h <;> rw [h] <;> norm_num

lemma analyze_text_scores_bounded (text : String) (source_url : Option String)
    (out : Except String GeminiTextResult)
    (hg : ∀ g, out = .ok g →
      0 ≤ g.authenticity_score ∧ g.authenticity_score ≤ 1 ∧
      0 ≤ g.misinformation_likelihood ∧ g.misinformation_likelihood ≤ 1) :
    0 ≤ (analyze_text_content text source_url out).authenticity_score ∧
    (analyze_text_content text source_url out).authenticity_score ≤ 1 ∧
    0 ≤ (analyze_text_content text source_url out).misinformation_likelihood ∧
    (analyze_text_content text source_url out).misinformation_likelihood ≤ 1 := by
  cases out with
  | error e =>
      refine ⟨?_, ?_, ?_, ?_⟩ <;> norm_num [analyze_text_content]
  | ok g =>
      obtain ⟨ha0, ha1, hm0, hm1⟩ := hg g rfl
      have hmis : 0 ≤ (analyze_text_content text source_url (.ok g)).misinformation_likelihood ∧
          (analyze_text_content text source_url (.ok g)).misinformation_likelihood ≤ 1 := by
        unfold analyze_text_content
        by_cases hpm : check_misinformation_patterns text ≠ []
        · simp only [if_pos hpm]
          constructor
          · exact le_min (by norm_num) (by linarith)
          · exact min_le_left _ _
        · simp only [if_neg hpm]
          exact ⟨hm0, hm1⟩
      have hmid : 0 ≤ (if check_misinformation_patterns text ≠ [] then
            max 0 (g.authenticity_score - 3/10) else g.authenticity_score) ∧
          (if check_misinformation_patterns text ≠ [] then
            max 0 (g.authenticity_score - 3/10) else g.authenticity_score) ≤ 1 := by
        by_cases hpm : check_misinformation_patterns text ≠ []
        · simp only [if_pos hpm]
          exact ⟨le_max_left _ _, max_le (by norm_num) (by linarith)⟩
        · simp only [if_neg hpm]
          exact ⟨ha0, ha1⟩
      have hauth : 0 ≤ (analyze_text_content text source_url (.ok g)).authenticity_score ∧
          (analyze_text_content text source_url (.ok g)).authenticity_score ≤ 1 := by
        unfold analyze_text_content
        cases source_url with
        | none => exact hmid
        | some u =>
            obtain ⟨hs0, hs1⟩ := evaluate_source_credibility_bounds u
            constructor
            · show 0 ≤ ((if check_misinformation_patterns text ≠ [] then
                  max 0 (g.authenticity_score - 3/10) else g.authenticity_score)
                  + evaluate_source_credibility u) / 2
              linarith [hmid.1]
            · show ((if check_misinformation_patterns text ≠ [] then
                  max 0 (g.authenticity_score - 3/10) else g.authenticity_score)
                  + evaluate_source_credibility u) / 2 ≤ 1
              linarith [hmid.2]
      exact ⟨hauth.1, hauth.2, hmis.1, hmis.2⟩

lemma analyze_video_auth_formula (url : Option String) (v : VideoInputs) :
    (analyze_video_content url (.ok v)).authenticity_score
      = (v.gemini_authenticity.getD (7/10)) * (7/10) +
        (if v.transcribed_text = "" then (7:ℚ)/10
          else (analyze_text_content v.transcribed_text url
            v.speech_gemini).authenticity_score) * (3/10) := by
  unfold analyze_video_content
  by_cases ht : v.transcribed_text = "" <;> simp [ht]

end Script2

/-! ## Claim theorems: score aggregation (C4 .. C9) -/

/-- **C4 (counterexample).**  The claim says the aggregated scores always lie
in [0,1] even for out-of-range raw signals.  In `_analyze_text_content`, when
no pattern phrase matches and no source URL is supplied, the external model's
raw scores pass through with no clamping at all: model output
`(authenticity 2, misinformation −1)` on the text `"hello"` yields a verdict
with `authenticity_score = 2 > 1` and `misinformation_likelihood = −1 < 0`. -/
theorem c4_counterexample_out_of_range_passes_through :
    (Script2.analyze_text_content "hello" none (.ok ⟨2, -1, none⟩)).authenticity_score = 2 ∧
    (Script2.analyze_text_content "hello" none (.ok ⟨2, -1, none⟩)).misinformation_likelihood = -1 ∧
    ¬((Script2.analyze_text_content "hello" none
        (.ok ⟨2, -1, none⟩)).authenticity_score ≤ 1) ∧
    ¬(0 ≤ (Script2.analyze_text_content "hello" none
        (.ok ⟨2, -1, none⟩)).misinformation_likelihood) := by
  have hpm : Script2.check_misinformation_patterns "hello" = [] := by decide
  have h1 : (Script2.analyze_text_content "hello" none
      (.ok ⟨2, -1, none⟩)).authenticity_score = 2 := by
    unfold Script2.analyze_text_content
    simp [hpm]
  have h2 : (Script2.analyze_text_content "hello" none
      (.ok ⟨2, -1, none⟩)).misinformation_likelihood = -1 := by
    unfold Script2.analyze_text_content
    simp [hpm]
  exact ⟨h1, h2, by rw [h1]; norm_num, by rw [h2]; norm_num⟩

/-- **C4 (amended).**  The verdict scores of the text, video and audio
analyses lie in [0,1] *provided the external-model scores themselves lie in
[0,1]* (source-credibility scores are bounded by construction; the
pattern-match step clamps its own ±0.3 adjustment; the modality blends are
convex combinations; the fallback is 0.5).  The unconditional version of the
claim is refuted by the counterexample: out-of-range model scores are not
clamped. -/
theorem c4_scores_bounded_for_in_range_signals :
    (∀ (text : String) (url : Option String) (out : Except String Script2.GeminiTextResult),
      (∀ g, out = .ok g →
        0 ≤ g.authenticity_score ∧ g.authenticity_score ≤ 1 ∧
        0 ≤ g.misinformation_likelihood ∧ g.misinformation_likelihood ≤ 1) →
      0 ≤ (Script2.analyze_text_content text url out).authenticity_score ∧
      (Script2.analyze_text_content text url out).authenticity_score ≤ 1 ∧
      0 ≤ (Script2.analyze_text_content text url out).misinformation_likelihood ∧
      (Script2.analyze_text_content text url out).misinformation_likelihood ≤ 1) ∧
    (∀ (url : Option String) (v : Script2.VideoInputs),
      (∀ q, v.gemini_authenticity = some q → 0 ≤ q ∧ q ≤ 1) →
      (∀ g, v.speech_gemini = .ok g →
        0 ≤ g.authenticity_score ∧ g.authenticity_score ≤ 1 ∧
        0 ≤ g.misinformation_likelihood ∧ g.misinformation_likelihood ≤ 1) →
      0 ≤ (Script2.analyze_video_content url (.ok v)).authenticity_score ∧
      (Script2.analyze_video_content url (.ok v)).authenticity_score ≤ 1 ∧
      0 ≤ (Script2.analyze_video_content url (.ok v)).misinformation_likelihood ∧
      (Script2.analyze_video_content url (.ok v)).misinformation_likelihood ≤ 1) ∧
    (∀ (url : Option String) (a : Script2.AudioInputs),
      (∀ q, a.gemini_authenticity = some q → 0 ≤ q ∧ q ≤ 1) →
      (∀ g, a.text_gemini = .ok g →
        0 ≤ g.authenticity_score ∧ g.authenticity_score ≤ 1 ∧
        0 ≤ g.misinformation_likelihood ∧ g.misinformation_likelihood ≤ 1) →
      0 ≤ (Script2.analyze_audio_content url (.ok a)).authenticity_score ∧
      (Script2.analyze_audio_content url (.ok a)).authenticity_score ≤ 1 ∧
      0 ≤ (Script2.analyze_audio_content url (.ok a)).misinformation_likelihood ∧
      (Script2.analyze_audio_content url (.ok a)).misinformation_likelihood ≤ 1) := by
  refine ⟨Script2.analyze_text_scores_bounded, ?_, ?_⟩
  · intro url v hv hs
    have hva : 0 ≤ v.gemini_authenticity.getD (7/10) ∧
        v.gemini_authenticity.getD (7/10) ≤ 1 := by
      cases hq : v.gemini_authenticity with
      | none => norm_num
      | some q => simpa using hv q hq
    have hsa : 0 ≤ (if v.transcribed_text = "" then (7:ℚ)/10
          else (Script2.analyze_text_content v.transcribed_text url
            v.speech_gemini).authenticity_score) ∧
        (if v.transcribed_text = "" then (7:ℚ)/10
          else (Script2.analyze_text_content v.transcribed_text url
            v.speech_gemini).authenticity_score) ≤ 1 := by
      by_cases ht : v.transcribed_text = ""
      · rw [if_pos ht]; norm_num
      · rw [if_neg ht]
        have := Script2.analyze_text_scores_bounded v.transcribed_text url v.speech_gemini hs
        exact ⟨this.1, this.2.1⟩
    have hauth := Script2.analyze_video_auth_formula url v
    have hmis : (Script2.analyze_video_content url (.ok v)).misinformation_likelihood
        = 1 - (Script2.analyze_video_content url (.ok v)).authenticity_score := rfl
    constructor
    · rw [hauth]; nlinarith [hva.1, hva.2, hsa.1, hsa.2]
    constructor
    · rw [hauth]; nlinarith [hva.1, hva.2, hsa.1, hsa.2]
    constructor
    · rw [hmis, hauth]; nlinarith [hva.1, hva.2, hsa.1, hsa.2]
    · rw [hmis, hauth]; nlinarith [hva.1, hva.2, hsa.1, hsa.2]
  · intro url a ha ht
    have hva : 0 ≤ a.gemini_authenticity.getD (7/10) ∧
        a.gemini_authenticity.getD (7/10) ≤ 1 := by
      cases hq : a.gemini_authenticity with
      | none => norm_num
      | some q => simpa using ha q hq
    have hta := Script2.analyze_text_scores_bounded a.transcribed_text url a.text_gemini ht
    have hauth : (Script2.analyze_audio_content url (.ok a)).authenticity_score
        = (Script2.analyze_text_content a.transcribed_text url
            a.text_gemini).authenticity_score * (6/10)
          + (a.gemini_authenticity.getD (7/10)) * (4/10) := rfl
    have hmis : (Script2.analyze_audio_content url (.ok a)).misinformation_likelihood
        = 1 - (Script2.analyze_audio_content url (.ok a)).authenticity_score := rfl
    constructor
    · rw [hauth]; nlinarith [hva.1, hva.2, hta.1, hta.2.1]
    constructor
    · rw [hauth]; nlinarith [hva.1, hva.2, hta.1, hta.2.1]
    constructor
    · rw [hmis, hauth]; nlinarith [hva.1, hva.2, hta.1, hta.2.1]
    · rw [hmis, hauth]; nlinarith [hva.1, hva.2, hta.1, hta.2.1]

/-- **C4 (witness).**  The amended bounds applied to concrete in-range
inputs for all three modalities. -/
theorem c4_scores_bounded_witness :
    (0 ≤ (Script2.analyze_text_content "hello" none
        (.ok ⟨1/2, 1/2, none⟩)).authenticity_score ∧
      (Script2.analyze_text_content "hello" none
        (.ok ⟨1/2, 1/2, none⟩)).authenticity_score ≤ 1 ∧
      0 ≤ (Script2.analyze_text_content "hello" none
        (.ok ⟨1/2, 1/2, none⟩)).misinformation_likelihood ∧
      (Script2.analyze_text_content "hello" none
        (.ok ⟨1/2, 1/2, none⟩)).misinformation_likelihood ≤ 1) ∧
    (0 ≤ (Script2.analyze_video_content none
        (.ok ⟨some (1/2), "hi", .ok ⟨1/2, 1/2, none⟩⟩)).authenticity_score ∧
      (Script2.analyze_video_content none
        (.ok ⟨some (1/2), "hi", .ok ⟨1/2, 1/2, none⟩⟩)).authenticity_score ≤ 1 ∧
      0 ≤ (Script2.analyze_video_content none
        (.ok ⟨some (1/2), "hi", .ok ⟨1/2, 1/2, none⟩⟩)).misinformation_likelihood ∧
      (Script2.analyze_video_content none
        (.ok ⟨some (1/2), "hi", .ok ⟨1/2, 1/2, none⟩⟩)).misinformation_likelihood ≤ 1) ∧
    (0 ≤ (Script2.analyze_audio_content none
        (.ok ⟨some (1/2), "hi", .ok ⟨1/2, 1/2, none⟩⟩)).authenticity_score ∧
      (Script2.analyze_audio_content none
        (.ok ⟨some (1/2), "hi", .ok ⟨1/2, 1/2, none⟩⟩)).authenticity_score ≤ 1 ∧
      0 ≤ (Script2.analyze_audio_content none
        (.ok ⟨some (1/2), "hi", .ok ⟨1/2, 1/2, none⟩⟩)).misinformation_likelihood ∧
      (Script2.analyze_audio_content none
        (.ok ⟨some (1/2), "hi", .ok ⟨1/2, 1/2, none⟩⟩)).misinformation_likelihood ≤ 1) :=
  ⟨c4_scores_bounded_for_in_range_signals.1 "hello" none (.ok ⟨1/2, 1/2, none⟩)
      (by intro g hg; injection hg with h; subst h; norm_num),
   c4_scores_bounded_for_in_range_signals.2.1 none ⟨some (1/2), "hi", .ok ⟨1/2, 1/2, none⟩⟩
      (by intro q hq; injection hq with h; subst h; norm_num)
      (by intro g hg; injection hg with h; subst h; norm_num),
   c4_scores_bounded_for_in_range_signals.2.2 none ⟨some (1/2), "hi", .ok ⟨1/2, 1/2, none⟩⟩
      (by intro q hq; injection hq with h; subst h; norm_num)
      (by intro g hg; injection hg with h; subst h; norm_num)⟩

/-- **C5 (counterexample).**  The claim asserts one fixed threshold table
(0.3 / 0.7, with a flag at ≥ 0.8) across the aggregation call sites.  The two
call sites disagree with the claim and with each other: script_2's
`_calculate_risk_level` maps 0.30 to `"low"` (claim says `"medium"`) and 0.69
to `"high"` (claim says `"medium"`), while ai_engine's
`_calculate_final_scores` sets `is_misinformation` already at a final score
of 0.75 < 0.8 (claim says the flag threshold is ≥ 0.8). -/
theorem c5_counterexample_threshold_tables_disagree :
    Script2.calculate_risk_level (3/10) = "low" ∧
    (AiEngine.calculate_final_scores [] (3/10) false).risk_level = "medium" ∧
    Script2.calculate_risk_level (69/100) = "high" ∧
    (AiEngine.calculate_final_scores [] (75/100) false).is_misinformation = true ∧
    (75 : ℚ)/100 < 8/10 := by
  refine ⟨?_, ?_, ?_, ?_, by norm_num⟩
  · unfold Script2.calculate_risk_level
    norm_num
  · simp only [AiEngine.calculate_final_scores]
    norm_num
  · unfold Script2.calculate_risk_level
    norm_num
  · simp only [AiEngine.calculate_final_scores]
    norm_num

/-- **C5 (amended).**  Each call site's classification is a pure,
deterministic threshold function, but they use different tables:
`_calculate_risk_level` in script_2 maps `m < 0.4 → low`,
`[0.4, 0.6) → medium`, `[0.6, 0.8) → high`, `≥ 0.8 → critical`; and
`_calculate_final_scores` in ai_engine maps the clamped final score
`< 0.3 → low`, `[0.3, 0.7) → medium`, `≥ 0.7 → high`, setting
`is_misinformation` exactly when the final score is ≥ 0.7 (or it was already
set on input). -/
theorem c5_risk_level_threshold_characterization :
    (∀ m : ℚ,
      (Script2.calculate_risk_level m = "critical" ↔ 8/10 ≤ m) ∧
      (Script2.calculate_risk_level m = "high" ↔ 6/10 ≤ m ∧ m < 8/10) ∧
      (Script2.calculate_risk_level m = "medium" ↔ 4/10 ≤ m ∧ m < 6/10) ∧
      (Script2.calculate_risk_level m = "low" ↔ m < 4/10)) ∧
    (∀ (pats : List String) (base : ℚ) (prior : Bool),
      ((AiEngine.calculate_final_scores pats base prior).risk_level = "low" ↔
        (AiEngine.calculate_final_scores pats base prior).confidence_score < 3/10) ∧
      ((AiEngine.calculate_final_scores pats base prior).risk_level = "medium" ↔
        3/10 ≤ (AiEngine.calculate_final_scores pats base prior).confidence_score ∧
        (AiEngine.calculate_final_scores pats base prior).confidence_score < 7/10) ∧
      ((AiEngine.calculate_final_scores pats base prior).risk_level = "high" ↔
        7/10 ≤ (AiEngine.calculate_final_scores pats base prior).confidence_score) ∧
      ((AiEngine.calculate_final_scores pats base prior).is_misinformation = true ↔
        (7/10 ≤ (AiEngine.calculate_final_scores pats base prior).confidence_score ∨
          prior = true))) := by
  constructor
  · intro m
    unfold Script2.calculate_risk_level
    split_ifs with h1 h2 h3 <;>
      refine ⟨?_, ?_, ?_, ?_⟩ <;>
      constructor <;>
      intro hx <;>
      first
        | rfl
        | exact absurd hx (by decide)
        | linarith
        | exact ⟨by linarith, by linarith⟩
        | (exfalso; rcases hx with ⟨hx1, hx2⟩; linarith)
        | (exfalso; linarith)
  · intro pats base prior
    simp only [AiEngine.calculate_final_scores]
    split_ifs with h1 h2 <;>
      dsimp only <;>
      refine ⟨?_, ?_, ?_, ?_⟩ <;>
      constructor <;>
      intro hx <;>
      first
        | rfl
        | exact absurd hx (by decide)
        | linarith
        | exact ⟨by linarith, by linarith⟩
        | exact Or.inr hx
        | exact Or.inl (by linarith)
        | (exfalso; rcases hx with ⟨hx1, hx2⟩; linarith)
        | (exfalso; linarith)
        | (rcases hx with hx | hx
           · exfalso; linarith
           · exact hx)

/-- The end-to-end claim text, spelled with its apostrophe. -/
def breakingText : String :=
  "BREAKING: they don" ++ aposS ++ "t want you to know this secret cure, no source needed"

/-- A text matching one phrase in each of two script_2 pattern categories. -/
def twoCategoryText : String := "voting machines hacked and covid hoax"

/-- **C6 (counterexample).**  The claim says the penalty is +0.2 to
misinformation and −0.2 to authenticity per matched category, clamped only
after all adjustments.  In script_2's text analysis, a text matching phrases
in *two* categories gets a single flat ±0.3 adjustment (clamped at that very
step), not two ±0.2 ones: from a neutral (0.5, 0.5) base the result is
(authenticity 0.2, misinformation 0.8), not the (0.1, 0.9) the claim's
per-category ±0.2 rule predicts. -/
theorem c6_counterexample_flat_penalty_not_per_category :
    Script2.check_misinformation_patterns twoCategoryText
      = ["election_manipulation: voting machines hacked",
          "health_misinformation: covid hoax"] ∧
    (Script2.analyze_text_content twoCategoryText none
        (.ok ⟨1/2, 1/2, none⟩)).misinformation_likelihood = 8/10 ∧
    (8 : ℚ)/10 ≠ 1/2 + 2 * (2/10) ∧
    (Script2.analyze_text_content twoCategoryText none
        (.ok ⟨1/2, 1/2, none⟩)).authenticity_score = 2/10 ∧
    (2 : ℚ)/10 ≠ 1/2 - 2 * (2/10) := by
  have hm := Script2.analyze_text_mis_of_patterns twoCategoryText none
    ⟨1/2, 1/2, none⟩ (by decide)
  have ha := Script2.analyze_text_auth_of_patterns_nourl twoCategoryText
    ⟨1/2, 1/2, none⟩ (by decide)
  refine ⟨by decide, ?_, by norm_num, ?_, by norm_num⟩
  · rw [hm]; norm_num
  · rw [ha]; norm_num

/-- **C6 (amended).**  What the code actually does.  In ai_engine:
`_check_misinformation_patterns` records each category at most once however
many of its phrases match (three phrases in one category give the same
pattern list — and hence the same penalty — as one), and
`_calculate_final_scores` adds 0.2 per recorded category to the *confidence
score*, with a single `min(1.0, ·)` clamp; two matched categories give two
increments.  In script_2's text analysis the adjustment is instead a flat
+0.3 to misinformation (clamped `min(1, ·)` at that step) and −0.3 to
authenticity (clamped `max(0, ·)` at that step), applied once as soon as any
phrase matches, independent of the category or phrase count; neither call
site applies a ±0.2-per-category adjustment to the
authenticity/misinformation pair. -/
theorem c6_pattern_penalty_semantics :
    (∀ t : String,
      (AiEngine.check_misinformation_patterns t).count "sensational_language" ≤ 1 ∧
      (AiEngine.check_misinformation_patterns t).count "conspiracy_indicators" ≤ 1 ∧
      (AiEngine.check_misinformation_patterns t).count "lack_of_sources" ≤ 1) ∧
    (∀ (pats : List String) (base : ℚ) (prior : Bool),
      (AiEngine.calculate_final_scores pats base prior).confidence_score
        = min 1 (base + pats.length * (2/10))) ∧
    (AiEngine.check_misinformation_patterns "shocking unbelievable secret stuff"
        = ["sensational_language"] ∧
      AiEngine.check_misinformation_patterns "secret stuff"
        = ["sensational_language"]) ∧
    AiEngine.check_misinformation_patterns "shocking conspiracy"
      = ["sensational_language", "conspiracy_indicators"] ∧
    (∀ (text : String) (url : Option String) (g : Script2.GeminiTextResult),
      Script2.check_misinformation_patterns text ≠ [] →
      (Script2.analyze_text_content text url (.ok g)).misinformation_likelihood
        = min 1 (g.misinformation_likelihood + 3/10)) ∧
    (∀ (text : String) (g : Script2.GeminiTextResult),
      Script2.check_misinformation_patterns text ≠ [] →
      (Script2.analyze_text_content text none (.ok g)).authenticity_score
        = max 0 (g.authenticity_score - 3/10)) := by
  refine ⟨?_, AiEngine.calculate_final_scores_confidence_eq, ⟨by decide, by decide⟩,
    by decide, Script2.analyze_text_mis_of_patterns, Script2.analyze_text_auth_of_patterns_nourl⟩
  intro t
  simp only [AiEngine.check_misinformation_patterns]
  split_ifs <;> refine ⟨?_, ?_, ?_⟩ <;> decide

/-- **C6 (witness).**  The amended statement applied to the concrete
two-category text with a neutral (0.5, 0.5) model base. -/
theorem c6_pattern_penalty_witness :
    (Script2.analyze_text_content twoCategoryText none
        (.ok ⟨1/2, 1/2, none⟩)).misinformation_likelihood
      = min 1 ((1:ℚ)/2 + 3/10) ∧
    (Script2.analyze_text_content twoCategoryText none
        (.ok ⟨1/2, 1/2, none⟩)).authenticity_score
      = max 0 ((1:ℚ)/2 - 3/10) :=
  ⟨c6_pattern_penalty_semantics.2.2.2.2.1 twoCategoryText none
      ⟨1/2, 1/2, none⟩ (by decide),
   c6_pattern_penalty_semantics.2.2.2.2.2 twoCategoryText
      ⟨1/2, 1/2, none⟩ (by decide)⟩

/-- **C7.**  When the external model call (or its JSON parse) fails during a
text analysis, `_analyze_text_content` does not propagate the exception: it
returns the neutral fallback verdict `(0.5, 0.5)` with overall confidence
0.3, `analysis_method = "fallback"`, and the failure message recorded in
`detection_details["error"]` — for every text, source URL and error.  And
with every signal neutral (neutral model scores, no pattern match, no URL,
no model confidence) the analysis still returns a complete verdict rather
than failing. -/
theorem c7_text_analysis_failure_returns_neutral_fallback :
    (∀ (text : String) (source_url : Option String) (e : String),
      Script2.analyze_text_content text source_url (.error e)
        = ⟨1/2, 1/2, none, none, "fallback", some e, 3/10⟩) ∧
    Script2.analyze_text_content "" none (.ok ⟨1/2, 1/2, none⟩)
      = ⟨1/2, 1/2, some [], some 1, "multimodal_text_analysis", none, 8/10⟩ :=
  ⟨fun _ _ _ => rfl, rfl⟩

/-- **C8.**  For video, the blended authenticity is
`visual·0.7 + transcribed-speech·0.3` (when a transcription is present, the
speech side is the full inner text analysis); for audio it is
`transcribed-text·0.6 + voice·0.4`; in both cases
`misinformation = 1 − authenticity` at this blending step.  The complement
is *not* taken earlier: in the text analysis the two scores are independent
(shown by a concrete verdict with `mis ≠ 1 − auth`). -/
theorem c8_video_audio_blend_weights :
    (∀ (source_url : Option String) (v : Script2.VideoInputs),
      v.transcribed_text ≠ "" →
      (Script2.analyze_video_content source_url (.ok v)).authenticity_score
        = (v.gemini_authenticity.getD (7/10)) * (7/10)
          + (Script2.analyze_text_content v.transcribed_text source_url
              v.speech_gemini).authenticity_score * (3/10) ∧
      (Script2.analyze_video_content source_url (.ok v)).misinformation_likelihood
        = 1 - (Script2.analyze_video_content source_url (.ok v)).authenticity_score) ∧
    (∀ (source_url : Option String) (a : Script2.AudioInputs),
      (Script2.analyze_audio_content source_url (.ok a)).authenticity_score
        = (Script2.analyze_text_content a.transcribed_text source_url
            a.text_gemini).authenticity_score * (6/10)
          + (a.gemini_authenticity.getD (7/10)) * (4/10) ∧
      (Script2.analyze_audio_content source_url (.ok a)).misinformation_likelihood
        = 1 - (Script2.analyze_audio_content source_url (.ok a)).authenticity_score) ∧
    ((Script2.analyze_text_content "hello" (some "pib.gov.in")
        (.ok ⟨1/2, 1/2, none⟩)).misinformation_likelihood
      ≠ 1 - (Script2.analyze_text_content "hello" (some "pib.gov.in")
        (.ok ⟨1/2, 1/2, none⟩)).authenticity_score) := by
  refine ⟨?_, ?_, ?_⟩
  · intro url v h
    have hauth : (Script2.analyze_video_content url (.ok v)).authenticity_score
        = (v.gemini_authenticity.getD (7/10)) * (7/10)
          + (Script2.analyze_text_content v.transcribed_text url
              v.speech_gemini).authenticity_score * (3/10) := by
      unfold Script2.analyze_video_content
      simp only [if_neg h]
      rfl
    exact ⟨hauth, rfl⟩
  · intro url a
    refine ⟨rfl, rfl⟩
  · have hpm : Script2.check_misinformation_patterns "hello" = [] := by decide
    have hmis : (Script2.analyze_text_content "hello" (some "pib.gov.in")
        (.ok ⟨1/2, 1/2, none⟩)).misinformation_likelihood = 1/2 := by
      unfold Script2.analyze_text_content
      simp only [hpm]
      rfl
    have hauth : (Script2.analyze_text_content "hello" (some "pib.gov.in")
        (.ok ⟨1/2, 1/2, none⟩)).authenticity_score = (1/2 + 95/100)/2 := by
      unfold Script2.analyze_text_content
      simp only [hpm]
      rfl
    rw [hmis, hauth]
    norm_num

/-- **C8 (witness).**  The blend equalities at a concrete video input with a
non-empty transcription. -/
theorem c8_video_audio_blend_witness :
    (Script2.analyze_video_content none
        (.ok ⟨some (1/2), "hi", .ok ⟨1/2, 1/2, none⟩⟩)).authenticity_score
      = ((⟨some (1/2), "hi", .ok ⟨1/2, 1/2, none⟩⟩ :
          Script2.VideoInputs).gemini_authenticity.getD (7/10)) * (7/10)
        + (Script2.analyze_text_content "hi" none
            (.ok ⟨1/2, 1/2, none⟩)).authenticity_score * (3/10) ∧
    (Script2.analyze_video_content none
        (.ok ⟨some (1/2), "hi", .ok ⟨1/2, 1/2, none⟩⟩)).misinformation_likelihood
      = 1 - (Script2.analyze_video_content none
        (.ok ⟨some (1/2), "hi", .ok ⟨1/2, 1/2, none⟩⟩)).authenticity_score :=
  c8_video_audio_blend_weights.1 none ⟨some (1/2), "hi", .ok ⟨1/2, 1/2, none⟩⟩
    (by decide)

/-- **C9 (counterexample).**  The claim says the pattern matcher flags both
`sensational_language` and `lack_of_sources` on the BREAKING text.  It does
not flag `lack_of_sources`: that category requires the text to contain
neither "source" nor "study" *and* to be longer than 100 characters, while
this text contains "source" (in "no source needed") and is 72 characters
long. -/
theorem c9_counterexample_lack_of_sources_not_flagged :
    "lack_of_sources" ∉ AiEngine.check_misinformation_patterns breakingText := by
  decide

/-- **C9 (amended).**  On the BREAKING text the ai_engine pattern matcher
flags exactly `sensational_language` (the text contains "source" and has
length 72 ≤ 100, so `lack_of_sources` cannot trigger).  From a neutral base
of 0.5, `_calculate_final_scores` then produces a final score of
0.5 + 1·0.2 = 0.7, `risk_level = "high"`, and `is_misinformation = true`
(there is no separate pre-clamp (0.9, 0.1) pair: ai_engine adjusts a single
confidence score). -/
theorem c9_breaking_text_scenario :
    AiEngine.check_misinformation_patterns breakingText = ["sensational_language"] ∧
    pyIn "source" (pyLower breakingText) = true ∧
    breakingText.length = 72 ∧
    AiEngine.calculate_final_scores
        (AiEngine.check_misinformation_patterns breakingText) (1/2) false
      = ⟨7/10, "high", true⟩ := by
  have hpat : AiEngine.check_misinformation_patterns breakingText
      = ["sensational_language"] := by decide
  refine ⟨hpat, by decide, by decide, ?_⟩
  rw [hpat]
  simp only [AiEngine.calculate_final_scores]
  norm_num
